import Mathlib

/-!
# Readiness bridge of `luv_zmq.c`

A shallow embedding of the send/recv/close paths and of the two poll callbacks of
`src/luv_zmq.c`, followed by theorems about them.

Conventions of the embedding.

* The native library (`zmq_*`), the reactor (`uv_poll_*`) and libc are external.  Every
  value they hand back is an explicit argument (`zmq_result`), and every call that
  matters for the protocol is recorded, in program order, in a trace of `Event`s.
  Message buffer management (`zmq_msg_init`, `zmq_msg_close`, `memcpy`) leaves no event.
* A `luv_state_t` is an execution context: an identity and the Lua stack it owns.
  `lua_State* L` of a request is the stack of the current context.
* `luaL_checkudata(L, 1, LUV_ZMQ_SOCKET_T)` is the receiver check of a method call; the
  functions below take the socket object itself.
* Lua numbers are left out of `LuaValue` (a number payload would be converted by
  `luaL_checklstring`; that conversion is not modelled).
-/

namespace LuvZmq

/-! ## Lua values and execution contexts -/

/-- Strings found on a Lua stack: raw bytes, or the text libc `strerror` gives for an
errno value (its spelling is left to libc). -/
inductive LuaString
  | bytes (data : List Nat)
  | strerror (errnum : Int)
  deriving DecidableEq, Repr

/-- Values found on a Lua stack. -/
inductive LuaValue
  | nil
  | boolean (b : Bool)
  | string (s : LuaString)
  | userdata (addr : Nat)
  deriving DecidableEq, Repr

/-- Lua stack, index 1 first. -/
abbrev LuaStack := List LuaValue

/-- Errors raised through `luaL_error` or by a failed `luaL_check*`. -/
inductive LuaError
  | badarg (narg : Nat)
  | message (s : LuaString)
  deriving DecidableEq, Repr

/-- Execution context (`luv_state_t`): identity and Lua stack. -/
structure luv_state_t where
  id : Nat
  L : LuaStack
  deriving DecidableEq, Repr

/-! ## External constants -/

/-- Value of `EAGAIN` (errno.h, Linux). -/
def EAGAIN : Int := 11

/-- Value of `EWOULDBLOCK` (errno.h, Linux: same as `EAGAIN`). -/
def EWOULDBLOCK : Int := 11

/-- Value of `LUA_MULTRET` (lua.h). -/
def LUA_MULTRET : Int := -1

/-- Event masks handed to `zmq_poll`. -/
inductive zmq_events
  | ZMQ_POLLIN
  | ZMQ_POLLOUT
  deriving DecidableEq, Repr

/-- The two callbacks this file installs on the poll handle. -/
inductive uv_poll_cb
  | recv_cb
  | send_cb
  deriving DecidableEq, Repr

/-! ## Socket object -/

/-- The `uv_poll_t` handle of a socket, as far as this file drives it: whether it is
started and which callback was installed last. -/
structure uv_poll_t where
  active : Bool
  poll_cb : Option uv_poll_cb
  deriving DecidableEq, Repr

/-- The socket object (`luv_object_t`): flag word, poll handle `h.poll`, the recv wait
queue `rouse` and the send wait queue `queue`.  The native socket `data` is opaque; every
`zmq_*` event of a trace is a call on it. -/
structure luv_object_t where
  flags : Nat
  h : uv_poll_t
  rouse : List luv_state_t
  queue : List luv_state_t
  deriving DecidableEq, Repr

/-- What the environment hands back from one native call: the return value, and `errno`
as the caller reads it afterwards. -/
structure zmq_result where
  rv : Int
  errno : Int
  deriving DecidableEq, Repr

/-- Calls made on external collaborators, in program order. -/
inductive Event
  | zmq_msg_send (data : LuaString)
  | zmq_msg_recv
  | zmq_poll (events : zmq_events)
  | zmq_close
  | uv_poll_start (cb : uv_poll_cb)
  | uv_poll_stop
  | luv__state_resume (state : luv_state_t)
  | luaL_error (err : LuaError)
  deriving DecidableEq, Repr

/-- How a Lua C function leaves: it returns `nresults` values from the top of its stack,
it yields, or it raises. -/
inductive Ret
  | returned (nresults : Nat)
  | yielded (nresults : Int)
  | raised (err : LuaError)
  deriving DecidableEq, Repr

/-- Result of a send or recv request: the socket afterwards, the Lua stack of the
caller, the trace and the way the call left. -/
structure Out where
  self : luv_object_t
  L : LuaStack
  trace : List Event
  ret : Ret
  deriving DecidableEq, Repr

/-- Result of a poll callback (a `void` function): the socket afterwards and the
trace. -/
structure CallOut where
  self : luv_object_t
  trace : List Event
  deriving DecidableEq, Repr

/-- Result of close and of the collection path: the socket afterwards, the trace and the
way the call left. -/
structure CloseOut where
  self : luv_object_t
  trace : List Event
  ret : Ret
  deriving DecidableEq, Repr

/-! ## External collaborators -/

/-- Lua API `luaL_checklstring(L, narg, &len)`: the string at stack index `narg`, if there is
one. -/
def luaL_checklstring (L : LuaStack) (narg : Nat) : Option LuaString :=
  match L.get? (narg - 1) with
  | some (.string s) => some s
  | _ => none

/-- Reactor call `uv_poll_start(&self->h.poll, UV_READABLE, cb)`: the handle is started with `cb`
installed. -/
def uv_poll_start (self : luv_object_t) (cb : uv_poll_cb) : luv_object_t :=
  { self with h := { active := true, poll_cb := some cb } }

/-- Reactor call `uv_poll_stop(&self->h.poll)`: the handle is stopped. -/
def uv_poll_stop (self : luv_object_t) : luv_object_t :=
  { self with h := { self.h with active := false } }

/-- Modelled from the spec: `luv__cond_wait` (luv_cond.c is not among the sources),
"push the current context onto the socket queue for that direction (tail)". -/
def luv__cond_wait (cond : List luv_state_t) (curr : luv_state_t) : List luv_state_t :=
  cond ++ [curr]

/-- Modelled from the spec: `luv__state_yield` (luv_core is not among the sources),
"Yield control to the Scheduler": the request leaves by yielding. -/
def luv__state_yield (narg : Int) : Ret :=
  .yielded narg

/-- Modelled from the spec: `luv__object_init` followed by `uv_poll_init_socket`, as
`luv_zmq_ctx_socket` runs them (luv_object.c is not among the sources): a freshly
created socket has both queues empty and the registration inactive. -/
def luv_zmq_ctx_socket : luv_object_t :=
  { flags := 0, h := { active := false, poll_cb := none }, rouse := [], queue := [] }

/-! ## Transfer attempts -/

/-- Source function `luv__zmq_socket_readable`: zero-timeout `zmq_poll` for `ZMQ_POLLIN`. -/
def luv__zmq_socket_readable (poll : zmq_result) : Int × List Event :=
  (poll.rv, [.zmq_poll .ZMQ_POLLIN])

/-- Source function `luv__zmq_socket_writable`: zero-timeout `zmq_poll` for `ZMQ_POLLOUT`. -/
def luv__zmq_socket_writable (poll : zmq_result) : Int × List Event :=
  (poll.rv, [.zmq_poll .ZMQ_POLLOUT])

/-- Source function `luv__zmq_socket_send`: checks the payload at stack index 2, sizes the message
(`init` is what `zmq_msg_init_size` hands back), and makes one `ZMQ_DONTWAIT` send
(`snd`).  Either raises, or returns the value of `zmq_msg_send`. -/
def luv__zmq_socket_send (state : luv_state_t) (init snd : zmq_result) :
    Except LuaError Int × List Event :=
  match luaL_checklstring state.L 2 with
  | none => (.error (.badarg 2), [])
  | some data =>
    if init.rv ≠ 0 then
      (.error (.message (.strerror init.errno)), [])
    else
      (.ok snd.rv, [.zmq_msg_send data])

/-- Source function `luv__zmq_socket_recv`: one `ZMQ_DONTWAIT` receive (`r`, with `msg` the bytes of the
message when there is one).  On failure the stack of `state` is left alone; otherwise it
is replaced by the message.  Returns the value of `zmq_msg_recv` and the stack. -/
def luv__zmq_socket_recv (state : luv_state_t) (r : zmq_result) (msg : List Nat) :
    Int × LuaStack × List Event :=
  if r.rv < 0 then
    (r.rv, state.L, [.zmq_msg_recv])
  else
    (r.rv, [.string (.bytes msg)], [.zmq_msg_recv])

/-! ## Poll callbacks -/

/-- Source function `luv_zmq_recv_cb`.  `none` stands for undefined behaviour: the head of an empty
`ngx_queue` is its own sentinel, which is not a `luv_state_t`. -/
def luv_zmq_recv_cb (self : luv_object_t) (poll r : zmq_result) (msg : List Nat) :
    Option CallOut :=
  let (readable, t0) := luv__zmq_socket_readable poll
  if readable = 0 then some { self := self, trace := t0 }
  else
    let self1 := uv_poll_stop self
    match self1.rouse with
    | [] => none
    | state :: rest =>
      let self2 := { self1 with rouse := rest }
      let (L, t1) : LuaStack × List Event :=
        if readable < 0 then
          ([.boolean false, .string (.strerror poll.errno)], [])
        else if readable > 0 then
          let (rv, L1, t) := luv__zmq_socket_recv state r msg
          if rv < 0 then
            if ¬ (r.errno = EAGAIN ∨ r.errno = EWOULDBLOCK) then
              ([.boolean false, .string (.strerror r.errno)], t)
            else (L1, t)
          else (L1, t)
        else (state.L, [])
      some { self := self2,
             trace := t0 ++ [.uv_poll_stop] ++ t1 ++ [.luv__state_resume { state with L := L }] }

/-- Source function `luv_zmq_send_cb`.  `none` stands for undefined behaviour, as in `luv_zmq_recv_cb`.
When the re-run attempt raises, the context is not resumed. -/
def luv_zmq_send_cb (self : luv_object_t) (poll init snd : zmq_result) :
    Option CallOut :=
  let (writable, t0) := luv__zmq_socket_writable poll
  if writable = 0 then some { self := self, trace := t0 }
  else
    let self1 := uv_poll_stop self
    match self1.queue with
    | [] => none
    | state :: rest =>
      let self2 := { self1 with queue := rest }
      if writable < 0 then
        some { self := self2,
               trace := t0 ++ [.uv_poll_stop] ++
                 [.luv__state_resume
                   { state with L := [.boolean false, .string (.strerror poll.errno)] }] }
      else if writable > 0 then
        match luv__zmq_socket_send state init snd with
        | (.error e, t) =>
          some { self := self2, trace := t0 ++ [.uv_poll_stop] ++ t ++ [.luaL_error e] }
        | (.ok rv, t) =>
          let L : LuaStack :=
            if rv < 0 then [.boolean false, .string (.strerror snd.errno)] else state.L
          some { self := self2,
                 trace := t0 ++ [.uv_poll_stop] ++ t ++
                   [.luv__state_resume { state with L := L }] }
      else
        some { self := self2, trace := t0 ++ [.uv_poll_stop] ++ [.luv__state_resume state] }

/-! ## Requests -/

/-- Source function `luv_zmq_socket_send`, called by context `curr`. -/
def luv_zmq_socket_send (self : luv_object_t) (curr : luv_state_t) (init snd : zmq_result) :
    Out :=
  match luv__zmq_socket_send curr init snd with
  | (.error e, t) => { self := self, L := curr.L, trace := t, ret := .raised e }
  | (.ok rv, t) =>
    if rv < 0 then
      if snd.errno = EAGAIN ∨ snd.errno = EWOULDBLOCK then
        let self1 := uv_poll_start self .send_cb
        let self2 := { self1 with queue := luv__cond_wait self1.queue curr }
        { self := self2, L := curr.L, trace := t ++ [.uv_poll_start .send_cb],
          ret := luv__state_yield 2 }
      else
        { self := self, L := [.boolean false, .string (.strerror snd.errno)], trace := t,
          ret := .returned 2 }
    else
      { self := self, L := curr.L, trace := t, ret := .returned 2 }

/-- Source function `luv_zmq_socket_recv`, called by context `curr`. -/
def luv_zmq_socket_recv (self : luv_object_t) (curr : luv_state_t) (r : zmq_result)
    (msg : List Nat) : Out :=
  let (rv, L1, t) := luv__zmq_socket_recv curr r msg
  if rv < 0 then
    if r.errno = EAGAIN ∨ r.errno = EWOULDBLOCK then
      let self1 := uv_poll_start self .recv_cb
      let self2 := { self1 with rouse := luv__cond_wait self1.rouse curr }
      { self := self2, L := L1, trace := t ++ [.uv_poll_start .recv_cb],
        ret := luv__state_yield LUA_MULTRET }
    else
      { self := self, L := [.boolean false, .string (.strerror r.errno)], trace := t,
        ret := .returned 2 }
  else
    { self := self, L := L1, trace := t, ret := .returned 1 }

/-! ## Close and collection

`LUV_ZMQ_SCLOSED` is declared in `luv_zmq.h`, which is not among the sources; the mask
is a parameter `SCLOSED` of the two functions that use it. -/

/-- Source function `luv_zmq_socket_close`.  The value of `zmq_close` is ignored by the source. -/
def luv_zmq_socket_close (SCLOSED : Nat) (self : luv_object_t) : CloseOut :=
  if self.flags &&& SCLOSED = 0 then
    let self1 := uv_poll_stop self
    { self := { self1 with flags := self1.flags ||| SCLOSED },
      trace := [.zmq_close, .uv_poll_stop], ret := .returned 1 }
  else
    { self := self, trace := [], ret := .returned 1 }

/-- Source function `luv_zmq_socket_free` (the `__gc` metamethod). -/
def luv_zmq_socket_free (SCLOSED : Nat) (self : luv_object_t) : CloseOut :=
  if self.flags &&& SCLOSED = 0 then
    let self1 := uv_poll_stop self
    { self := { self1 with flags := self1.flags ||| SCLOSED },
      trace := [.zmq_close, .uv_poll_stop], ret := .returned 1 }
  else
    { self := self, trace := [], ret := .returned 1 }

/-! ## Reading traces -/

/-- The contexts handed to `luv__state_resume` in a trace, in order, each with the stack
it is resumed on. -/
def resumed : List Event → List luv_state_t
  | [] => []
  | .luv__state_resume st :: t => st :: resumed t
  | _ :: t => resumed t

/-- Whether an event is a transfer attempt on the native socket. -/
def Event.isTransfer : Event → Bool
  | .zmq_msg_send _ => true
  | .zmq_msg_recv => true
  | _ => false

/-- The outcome of a transfer attempt that makes a request suspend: a negative return
with `errno` equal to `EAGAIN` or `EWOULDBLOCK`. -/
def wouldBlock (r : zmq_result) : Prop :=
  r.rv < 0 ∧ (r.errno = EAGAIN ∨ r.errno = EWOULDBLOCK)

instance (r : zmq_result) : Decidable (wouldBlock r) := by
  unfold wouldBlock; infer_instance

/-- Whether the closed flag of a socket is set. -/
def isClosed (SCLOSED : Nat) (self : luv_object_t) : Prop :=
  self.flags &&& SCLOSED ≠ 0

instance (SCLOSED : Nat) (self : luv_object_t) : Decidable (isClosed SCLOSED self) := by
  unfold isClosed; infer_instance

/-! ## Histories

What can happen to a socket, one operation at a time.  A callback is run by the reactor
only while the registration is active, and it is the callback installed last. -/

/-- One operation on a socket, with what the environment hands back during it. -/
inductive Op
  | send (curr : luv_state_t) (init snd : zmq_result)
  | recv (curr : luv_state_t) (r : zmq_result) (msg : List Nat)
  | close
  | recv_ready (poll r : zmq_result) (msg : List Nat)
  | send_ready (poll init snd : zmq_result)
  deriving DecidableEq, Repr

/-- Whether the operation can happen in this state: requests and close always can, a
callback only when the registration is active with that callback installed. -/
def enabled (s : luv_object_t) : Op → Bool
  | .recv_ready _ _ _ => s.h.active && decide (s.h.poll_cb = some .recv_cb)
  | .send_ready _ _ _ => s.h.active && decide (s.h.poll_cb = some .send_cb)
  | _ => true

/-- The socket after one operation; `none` when a callback has undefined behaviour. -/
def step (SCLOSED : Nat) (s : luv_object_t) : Op → Option luv_object_t
  | .send curr init snd => some (luv_zmq_socket_send s curr init snd).self
  | .recv curr r msg => some (luv_zmq_socket_recv s curr r msg).self
  | .close => some (luv_zmq_socket_close SCLOSED s).self
  | .recv_ready poll r msg => (luv_zmq_recv_cb s poll r msg).map (·.self)
  | .send_ready poll init snd => (luv_zmq_send_cb s poll init snd).map (·.self)

/-- The socket after a sequence of operations; `none` when an operation of the sequence
cannot happen where it stands or has undefined behaviour. -/
def run (SCLOSED : Nat) (s : luv_object_t) : List Op → Option luv_object_t
  | [] => some s
  | op :: ops =>
    if enabled s op then
      match step SCLOSED s op with
      | some s1 => run SCLOSED s1 ops
      | none => none
    else none

/-! ## Sample data -/

/-- Context number `n`, suspended in `recv`: its stack holds the socket userdata. -/
def recvCtx (n : Nat) : luv_state_t :=
  { id := n, L := [.userdata 1] }

/-- Context number `n`, calling `send` with the payload `data`. -/
def sendCtx (n : Nat) (data : List Nat) : luv_state_t :=
  { id := n, L := [.userdata 1, .string (.bytes data)] }

/-- A transfer or poll that succeeds with return value `n`. -/
def okResult (n : Nat) : zmq_result :=
  { rv := n, errno := 0 }

/-- A transfer that fails with would-block. -/
def againResult : zmq_result :=
  { rv := -1, errno := EAGAIN }

/-- A transfer that fails with `ENOTSOCK` (88 on Linux). -/
def notsockResult : zmq_result :=
  { rv := -1, errno := 88 }

/-! ## Helper lemmas -/

/-- Once the mask has been or-ed into a flag word, the test for it is non-zero. -/
theorem flag_test_after_set (f c : Nat) (hc : c ≠ 0) : (f ||| c) &&& c ≠ 0 := by
  have h : (f ||| c) &&& c = c := by
    apply Nat.eq_of_testBit_eq
    intro i
    simp only [Nat.testBit_and, Nat.testBit_or]
    cases f.testBit i <;> cases c.testBit i <;> rfl
  rw [h]; exact hc

/-- The collection path is the same function of the socket object as close. -/
theorem free_eq_close (SCLOSED : Nat) (self : luv_object_t) :
    luv_zmq_socket_free SCLOSED self = luv_zmq_socket_close SCLOSED self := rfl

/-- Close on a socket whose flag is set does nothing. -/
theorem close_of_closed (SCLOSED : Nat) (self : luv_object_t)
    (h : self.flags &&& SCLOSED ≠ 0) :
    luv_zmq_socket_close SCLOSED self = { self := self, trace := [], ret := .returned 1 } := by
  simp [luv_zmq_socket_close, h]

/-- Close leaves the flag set, when the mask is not zero. -/
theorem closed_after_close (SCLOSED : Nat) (hc : SCLOSED ≠ 0) (self : luv_object_t) :
    (luv_zmq_socket_close SCLOSED self).self.flags &&& SCLOSED ≠ 0 := by
  unfold luv_zmq_socket_close
  split
  · exact flag_test_after_set _ _ hc
  · assumption

/-- A send request that hits would-block appends the caller to the send queue and
leaves the recv queue alone. -/
theorem send_would_block_self (self : luv_object_t) (curr : luv_state_t)
    (init snd : zmq_result) (hd : (luaL_checklstring curr.L 2).isSome = true)
    (hi : init.rv = 0) (hs : wouldBlock snd) :
    (luv_zmq_socket_send self curr init snd).self =
      { flags := self.flags, h := { active := true, poll_cb := some .send_cb },
        rouse := self.rouse, queue := self.queue ++ [curr] } := by
  obtain ⟨data, hd⟩ := Option.isSome_iff_exists.mp hd
  obtain ⟨h1, h2⟩ := hs
  simp [luv_zmq_socket_send, luv__zmq_socket_send, hd, hi, h1, h2, uv_poll_start,
    luv__cond_wait]

/-- A recv request that hits would-block appends the caller to the recv queue and
leaves the send queue alone. -/
theorem recv_would_block_self (self : luv_object_t) (curr : luv_state_t)
    (r : zmq_result) (msg : List Nat) (hr : wouldBlock r) :
    (luv_zmq_socket_recv self curr r msg).self =
      { flags := self.flags, h := { active := true, poll_cb := some .recv_cb },
        rouse := self.rouse ++ [curr], queue := self.queue } := by
  obtain ⟨h1, h2⟩ := hr
  simp [luv_zmq_socket_recv, luv__zmq_socket_recv, h1, h2, uv_poll_start, luv__cond_wait]

/-- A run of send requests that all hit would-block appends the callers, in order. -/
theorem run_sends_would_block (SCLOSED : Nat)
    (reqs : List (luv_state_t × zmq_result × zmq_result)) :
    ∀ self : luv_object_t,
    (∀ q ∈ reqs, (luaL_checklstring q.1.L 2).isSome = true ∧ q.2.1.rv = 0 ∧
      wouldBlock q.2.2) →
    ∃ s1, run SCLOSED self (reqs.map fun q => Op.send q.1 q.2.1 q.2.2) = some s1 ∧
      s1.queue = self.queue ++ reqs.map (·.1) ∧ s1.rouse = self.rouse := by
  induction reqs with
  | nil => intro self _; exact ⟨self, rfl, by simp, rfl⟩
  | cons q qs ih =>
    intro self h
    obtain ⟨hd, hi, hs⟩ := h q (List.mem_cons_self _ _)
    obtain ⟨s1, hrun, hq, hro⟩ :=
      ih (luv_zmq_socket_send self q.1 q.2.1 q.2.2).self
        (fun x hx => h x (List.mem_cons_of_mem _ hx))
    refine ⟨s1, ?_, ?_, ?_⟩
    · simp only [List.map_cons, run, enabled, step, if_true]
      exact hrun
    · rw [hq, send_would_block_self self q.1 q.2.1 q.2.2 hd hi hs]
      simp
    · rw [hro, send_would_block_self self q.1 q.2.1 q.2.2 hd hi hs]

/-- A run of recv requests that all hit would-block appends the callers, in order. -/
theorem run_recvs_would_block (SCLOSED : Nat)
    (reqs : List (luv_state_t × zmq_result × List Nat)) :
    ∀ self : luv_object_t,
    (∀ q ∈ reqs, wouldBlock q.2.1) →
    ∃ s1, run SCLOSED self (reqs.map fun q => Op.recv q.1 q.2.1 q.2.2) = some s1 ∧
      s1.rouse = self.rouse ++ reqs.map (·.1) ∧ s1.queue = self.queue := by
  induction reqs with
  | nil => intro self _; exact ⟨self, rfl, by simp, rfl⟩
  | cons q qs ih =>
    intro self h
    have hs := h q (List.mem_cons_self _ _)
    obtain ⟨s1, hrun, hq, hro⟩ :=
      ih (luv_zmq_socket_recv self q.1 q.2.1 q.2.2).self
        (fun x hx => h x (List.mem_cons_of_mem _ hx))
    refine ⟨s1, ?_, ?_, ?_⟩
    · simp only [List.map_cons, run, enabled, step, if_true]
      exact hrun
    · rw [hq, recv_would_block_self self q.1 q.2.1 q.2.2 hs]
      simp
    · rw [hro, recv_would_block_self self q.1 q.2.1 q.2.2 hs]

/-- The link between the registration and the queues that every operation keeps: while
the registration is active, the callback installed is that of a direction whose wait
queue is not empty. -/
def Armed (s : luv_object_t) : Prop :=
  s.h.active = true →
    (s.h.poll_cb = some .recv_cb ∧ s.rouse ≠ []) ∨ (s.h.poll_cb = some .send_cb ∧ s.queue ≠ [])

/-- A run of `luv_zmq_recv_cb` after a non-zero poll leaves the registration stopped. -/
theorem recv_cb_stops (self : luv_object_t) (poll r : zmq_result) (msg : List Nat)
    (out : CallOut) (hp : poll.rv ≠ 0) (ho : luv_zmq_recv_cb self poll r msg = some out) :
    out.self.h.active = false := by
  simp only [luv_zmq_recv_cb, luv__zmq_socket_readable, hp, if_false] at ho
  split at ho
  · simp at ho
  · simp only [Option.some.injEq] at ho
    subst ho
    rfl

/-- A run of `luv_zmq_send_cb` after a non-zero poll leaves the registration stopped. -/
theorem send_cb_stops (self : luv_object_t) (poll init snd : zmq_result)
    (out : CallOut) (hp : poll.rv ≠ 0) (ho : luv_zmq_send_cb self poll init snd = some out) :
    out.self.h.active = false := by
  simp only [luv_zmq_send_cb, luv__zmq_socket_writable, hp, if_false] at ho
  split at ho
  · simp at ho
  · split at ho
    · simp only [Option.some.injEq] at ho
      subst ho
      rfl
    · split at ho
      · split at ho
        · simp only [Option.some.injEq] at ho
          subst ho
          rfl
        · simp only [Option.some.injEq] at ho
          subst ho
          rfl
      · simp only [Option.some.injEq] at ho
        subst ho
        rfl

/-- A callback run after a zero poll returns the socket as it was. -/
theorem recv_cb_zero (self : luv_object_t) (poll r : zmq_result) (msg : List Nat)
    (hp : poll.rv = 0) :
    luv_zmq_recv_cb self poll r msg = some { self := self, trace := [.zmq_poll .ZMQ_POLLIN] } := by
  simp [luv_zmq_recv_cb, luv__zmq_socket_readable, hp]

/-- A callback run after a zero poll returns the socket as it was. -/
theorem send_cb_zero (self : luv_object_t) (poll init snd : zmq_result)
    (hp : poll.rv = 0) :
    luv_zmq_send_cb self poll init snd =
      some { self := self, trace := [.zmq_poll .ZMQ_POLLOUT] } := by
  simp [luv_zmq_send_cb, luv__zmq_socket_writable, hp]

/-- A send request keeps `Armed`. -/
theorem armed_send (s : luv_object_t) (curr : luv_state_t) (init snd : zmq_result)
    (h : Armed s) : Armed (luv_zmq_socket_send s curr init snd).self := by
  unfold luv_zmq_socket_send
  split
  · exact h
  · split
    · split
      · intro _
        right
        simp [uv_poll_start, luv__cond_wait]
      · exact h
    · exact h

/-- A recv request keeps `Armed`. -/
theorem armed_recv (s : luv_object_t) (curr : luv_state_t) (r : zmq_result)
    (msg : List Nat) (h : Armed s) : Armed (luv_zmq_socket_recv s curr r msg).self := by
  simp only [luv_zmq_socket_recv, luv__zmq_socket_recv]
  by_cases h1 : r.rv < 0
  · by_cases h2 : r.errno = EAGAIN ∨ r.errno = EWOULDBLOCK
    · simp only [h1, h2, if_true]
      intro _
      left
      simp [uv_poll_start, luv__cond_wait]
    · simp only [h1, h2, if_true, if_false]
      exact h
  · simp only [h1, if_false]
    exact h

/-- Close keeps `Armed`. -/
theorem armed_close (SCLOSED : Nat) (s : luv_object_t) (h : Armed s) :
    Armed (luv_zmq_socket_close SCLOSED s).self := by
  unfold luv_zmq_socket_close
  split
  · intro ha
    simp [uv_poll_stop] at ha
  · exact h

/-- Every operation keeps `Armed`. -/
theorem armed_step (SCLOSED : Nat) (s s1 : luv_object_t) (op : Op) (h : Armed s)
    (hs : step SCLOSED s op = some s1) : Armed s1 := by
  cases op with
  | send curr init snd =>
    simp only [step, Option.some.injEq] at hs
    subst hs
    exact armed_send s curr init snd h
  | recv curr r msg =>
    simp only [step, Option.some.injEq] at hs
    subst hs
    exact armed_recv s curr r msg h
  | close =>
    simp only [step, Option.some.injEq] at hs
    subst hs
    exact armed_close SCLOSED s h
  | recv_ready poll r msg =>
    simp only [step, Option.map_eq_some'] at hs
    obtain ⟨out, ho, rfl⟩ := hs
    by_cases hp : poll.rv = 0
    · rw [recv_cb_zero s poll r msg hp] at ho
      simp only [Option.some.injEq] at ho
      subst ho
      exact h
    · intro ha
      rw [recv_cb_stops s poll r msg out hp ho] at ha
      cases ha
  | send_ready poll init snd =>
    simp only [step, Option.map_eq_some'] at hs
    obtain ⟨out, ho, rfl⟩ := hs
    by_cases hp : poll.rv = 0
    · rw [send_cb_zero s poll init snd hp] at ho
      simp only [Option.some.injEq] at ho
      subst ho
      exact h
    · intro ha
      rw [send_cb_stops s poll init snd out hp ho] at ha
      cases ha

/-- Every history keeps `Armed`. -/
theorem armed_run (SCLOSED : Nat) (ops : List Op) :
    ∀ s s1 : luv_object_t, Armed s → run SCLOSED s ops = some s1 → Armed s1 := by
  induction ops with
  | nil =>
    intro s s1 h hr
    simp only [run, Option.some.injEq] at hr
    subst hr
    exact h
  | cons op ops ih =>
    intro s s1 h hr
    simp only [run] at hr
    split at hr
    · split at hr
      · rename_i s2 hs2
        exact ih s2 s1 (armed_step SCLOSED s s2 op h hs2) hr
      · cases hr
    · cases hr

/-- A freshly created socket is `Armed`: its registration is not active. -/
theorem armed_fresh : Armed luv_zmq_ctx_socket := by
  intro h
  cases h

/-- In an `Armed` state, an operation that can happen is defined. -/
theorem armed_defined (SCLOSED : Nat) (s : luv_object_t) (op : Op) (h : Armed s)
    (he : enabled s op = true) : (step SCLOSED s op).isSome = true := by
  cases op with
  | send curr init snd => rfl
  | recv curr r msg => rfl
  | close => rfl
  | recv_ready poll r msg =>
    simp only [enabled, Bool.and_eq_true, decide_eq_true_eq] at he
    rcases h he.1 with ⟨_, hq⟩ | ⟨hcb, _⟩
    · obtain ⟨F, rest, hq2⟩ := List.exists_cons_of_ne_nil hq
      simp only [step, Option.isSome_map']
      by_cases hp : poll.rv = 0
      · rw [recv_cb_zero s poll r msg hp]; rfl
      · simp [luv_zmq_recv_cb, luv__zmq_socket_readable, hp, uv_poll_stop, hq2]
    · rw [he.2] at hcb
      cases hcb
  | send_ready poll init snd =>
    simp only [enabled, Bool.and_eq_true, decide_eq_true_eq] at he
    rcases h he.1 with ⟨hcb, _⟩ | ⟨_, hq⟩
    · rw [he.2] at hcb
      cases hcb
    · obtain ⟨F, rest, hq2⟩ := List.exists_cons_of_ne_nil hq
      simp only [step, Option.isSome_map']
      by_cases hp : poll.rv = 0
      · rw [send_cb_zero s poll init snd hp]; rfl
      · simp only [luv_zmq_send_cb, luv__zmq_socket_writable, hp, if_false, uv_poll_stop, hq2]
        split
        · rfl
        · split
          · split <;> rfl
          · rfl

/-- A send request hands the flag word back as it was. -/
theorem send_keeps_flags (self : luv_object_t) (curr : luv_state_t)
    (init snd : zmq_result) :
    (luv_zmq_socket_send self curr init snd).self.flags = self.flags := by
  unfold luv_zmq_socket_send
  split
  · rfl
  · split
    · split <;> rfl
    · rfl

/-- A recv request hands the flag word back as it was. -/
theorem recv_keeps_flags (self : luv_object_t) (curr : luv_state_t) (r : zmq_result)
    (msg : List Nat) :
    (luv_zmq_socket_recv self curr r msg).self.flags = self.flags := by
  simp only [luv_zmq_socket_recv, luv__zmq_socket_recv]
  by_cases h1 : r.rv < 0
  · by_cases h2 : r.errno = EAGAIN ∨ r.errno = EWOULDBLOCK
    · simp [h1, h2, uv_poll_start]
    · simp [h1, h2]
  · simp [h1]

/-- A send request does not read the flag word: with another word in its place the
result is the same, up to that word. -/
theorem send_ignores_flags (self : luv_object_t) (curr : luv_state_t)
    (init snd : zmq_result) (flags : Nat) :
    luv_zmq_socket_send { self with flags := flags } curr init snd =
      { luv_zmq_socket_send self curr init snd with
        self := { (luv_zmq_socket_send self curr init snd).self with flags := flags } } := by
  unfold luv_zmq_socket_send
  split
  · rfl
  · split
    · split <;> rfl
    · rfl

/-- A recv request does not read the flag word: with another word in its place the
result is the same, up to that word. -/
theorem recv_ignores_flags (self : luv_object_t) (curr : luv_state_t) (r : zmq_result)
    (msg : List Nat) (flags : Nat) :
    luv_zmq_socket_recv { self with flags := flags } curr r msg =
      { luv_zmq_socket_recv self curr r msg with
        self := { (luv_zmq_socket_recv self curr r msg).self with flags := flags } } := by
  simp only [luv_zmq_socket_recv, luv__zmq_socket_recv]
  by_cases h1 : r.rv < 0
  · by_cases h2 : r.errno = EAGAIN ∨ r.errno = EWOULDBLOCK
    · simp [h1, h2, uv_poll_start]
    · simp [h1, h2]
  · simp [h1]

/-! ## Theorems -/

/-- C1. Fast path: when the transfer attempt of a send or recv request does not report
would-block, the request returns synchronously (it does not yield), the socket object
(both wait queues and the poll handle) is unchanged, and the trace holds the transfer
attempt and nothing else, so the reactor is not called. On failure the caller gets
`false` and the error text, on success the message (recv) or its own stack (send).
The send part is for a caller `scurr` whose attempt is made (payload at index 2, message
sized); the recv part is for any caller `rcurr`, whatever its stack. -/
theorem fast_path_returns_synchronously (self : luv_object_t) (scurr rcurr : luv_state_t)
    (init snd r : zmq_result) (msg : List Nat) (data : LuaString) :
    (luaL_checklstring scurr.L 2 = some data → init.rv = 0 → ¬ wouldBlock snd →
      luv_zmq_socket_send self scurr init snd =
        { self := self,
          L := if snd.rv < 0 then [.boolean false, .string (.strerror snd.errno)]
               else scurr.L,
          trace := [.zmq_msg_send data], ret := .returned 2 }) ∧
    (¬ wouldBlock r →
      luv_zmq_socket_recv self rcurr r msg =
        { self := self,
          L := if r.rv < 0 then [.boolean false, .string (.strerror r.errno)]
               else [.string (.bytes msg)],
          trace := [.zmq_msg_recv], ret := .returned (if r.rv < 0 then 2 else 1) }) := by
  unfold wouldBlock
  constructor
  · intro hd hi hs
    simp only [luv_zmq_socket_send, luv__zmq_socket_send, hd, hi]
    by_cases h : snd.rv < 0
    · have h2 : ¬ (snd.errno = EAGAIN ∨ snd.errno = EWOULDBLOCK) := fun h3 => hs ⟨h, h3⟩
      simp [h, h2]
    · simp [h]
  · intro hr
    simp only [luv_zmq_socket_recv, luv__zmq_socket_recv]
    by_cases h : r.rv < 0
    · have h2 : ¬ (r.errno = EAGAIN ∨ r.errno = EWOULDBLOCK) := fun h3 => hr ⟨h, h3⟩
      simp [h, h2]
    · simp [h]

/-- Witness for C1: on a socket that already has a waiter in each queue, a send that
succeeds at once, and a recv by an ordinary caller (stack: the socket alone) that gets
the message `[7]` at once. -/
theorem fast_path_returns_synchronously_witness :
    luv_zmq_socket_send
        { flags := 0, h := { active := true, poll_cb := some .recv_cb },
          rouse := [recvCtx 1], queue := [sendCtx 2 [104]] }
        (sendCtx 3 [104, 105]) (okResult 0) (okResult 2) =
      { self := { flags := 0, h := { active := true, poll_cb := some .recv_cb },
                  rouse := [recvCtx 1], queue := [sendCtx 2 [104]] },
        L := [.userdata 1, .string (.bytes [104, 105])],
        trace := [.zmq_msg_send (.bytes [104, 105])], ret := .returned 2 } ∧
    luv_zmq_socket_recv
        { flags := 0, h := { active := true, poll_cb := some .recv_cb },
          rouse := [recvCtx 1], queue := [sendCtx 2 [104]] }
        (recvCtx 4) (okResult 1) [7] =
      { self := { flags := 0, h := { active := true, poll_cb := some .recv_cb },
                  rouse := [recvCtx 1], queue := [sendCtx 2 [104]] },
        L := [.string (.bytes [7])],
        trace := [.zmq_msg_recv], ret := .returned 1 } := by
  have h := fast_path_returns_synchronously
    { flags := 0, h := { active := true, poll_cb := some .recv_cb },
      rouse := [recvCtx 1], queue := [sendCtx 2 [104]] }
    (sendCtx 3 [104, 105]) (recvCtx 4) (okResult 0) (okResult 2) (okResult 1) [7]
    (.bytes [104, 105])
  constructor
  · rw [h.1 (by decide) (by decide) (by decide)]; decide
  · rw [h.2 (by decide)]; decide

/-- C2. FIFO resumption on recv: with waiters `F1`, `F2` and `rest` queued in that order,
one run of `luv_zmq_recv_cb` whose poll reports readable and whose receive yields a
message is defined, resumes exactly `F1`, on a stack holding the bytes of that message,
and leaves `F2 :: rest` in the recv queue in the same order; the send queue is
untouched. -/
theorem recv_cb_resumes_head_only (self : luv_object_t) (F1 F2 : luv_state_t)
    (rest : List luv_state_t) (poll r : zmq_result) (msg : List Nat)
    (hq : self.rouse = F1 :: F2 :: rest) (hp : 0 < poll.rv) (hr : 0 ≤ r.rv) :
    ∃ out, luv_zmq_recv_cb self poll r msg = some out ∧
      resumed out.trace = [{ F1 with L := [.string (.bytes msg)] }] ∧
      out.self.rouse = F2 :: rest ∧
      out.self.queue = self.queue := by
  have h0 : ¬ poll.rv = 0 := by omega
  have h1 : ¬ poll.rv < 0 := by omega
  have h2 : ¬ r.rv < 0 := by omega
  simp [luv_zmq_recv_cb, luv__zmq_socket_readable, luv__zmq_socket_recv, uv_poll_stop,
    hq, h0, h1, h2, hp, resumed]

/-- Witness for C2: three recv waiters, one message `[104, 105]`. -/
theorem recv_cb_resumes_head_only_witness :
    ∃ out, luv_zmq_recv_cb
        { flags := 0, h := { active := true, poll_cb := some .recv_cb },
          rouse := [recvCtx 1, recvCtx 2, recvCtx 3], queue := [] }
        (okResult 1) (okResult 2) [104, 105] = some out ∧
      resumed out.trace = [{ recvCtx 1 with L := [.string (.bytes [104, 105])] }] ∧
      out.self.rouse = recvCtx 2 :: [recvCtx 3] ∧
      out.self.queue = [] :=
  recv_cb_resumes_head_only
    { flags := 0, h := { active := true, poll_cb := some .recv_cb },
      rouse := [recvCtx 1, recvCtx 2, recvCtx 3], queue := [] }
    (recvCtx 1) (recvCtx 2) [recvCtx 3] (okResult 1) (okResult 2) [104, 105]
    rfl (by decide) (by decide)

/-- C8. Re-validation gate: when the zero-timeout poll at the start of a callback
returns 0, the callback is defined, leaves the socket object as it was (no entry leaves
a wait queue), and its trace is that poll alone (no transfer attempt, no resume).
Conversely a callback run that resumes a context had a non-zero poll result, and the
poll for its own direction is the first event of its trace. -/
theorem callback_without_readiness_is_inert (self : luv_object_t)
    (poll init snd r : zmq_result) (msg : List Nat) :
    (poll.rv = 0 →
      luv_zmq_recv_cb self poll r msg =
        some { self := self, trace := [.zmq_poll .ZMQ_POLLIN] } ∧
      luv_zmq_send_cb self poll init snd =
        some { self := self, trace := [.zmq_poll .ZMQ_POLLOUT] }) ∧
    (∀ out, luv_zmq_recv_cb self poll r msg = some out → resumed out.trace ≠ [] →
      poll.rv ≠ 0 ∧ out.trace.head? = some (.zmq_poll .ZMQ_POLLIN)) ∧
    (∀ out, luv_zmq_send_cb self poll init snd = some out → resumed out.trace ≠ [] →
      poll.rv ≠ 0 ∧ out.trace.head? = some (.zmq_poll .ZMQ_POLLOUT)) := by
  refine ⟨?_, ?_, ?_⟩
  · intro h
    simp [luv_zmq_recv_cb, luv_zmq_send_cb, luv__zmq_socket_readable,
      luv__zmq_socket_writable, h]
  · intro out ho hres
    by_cases h : poll.rv = 0
    · simp [luv_zmq_recv_cb, luv__zmq_socket_readable, h] at ho
      subst ho
      simp [resumed] at hres
    · refine ⟨h, ?_⟩
      simp only [luv_zmq_recv_cb, luv__zmq_socket_readable, h, if_false] at ho
      split at ho
      · simp at ho
      · simp only [Option.some.injEq] at ho
        subst ho
        simp
  · intro out ho hres
    by_cases h : poll.rv = 0
    · simp [luv_zmq_send_cb, luv__zmq_socket_writable, h] at ho
      subst ho
      simp [resumed] at hres
    · refine ⟨h, ?_⟩
      simp only [luv_zmq_send_cb, luv__zmq_socket_writable, h, if_false] at ho
      split at ho
      · simp at ho
      · split at ho
        · simp only [Option.some.injEq] at ho
          subst ho
          simp
        · split at ho
          · split at ho
            · simp only [Option.some.injEq] at ho
              subst ho
              simp
            · simp only [Option.some.injEq] at ho
              subst ho
              simp
          · simp only [Option.some.injEq] at ho
            subst ho
            simp

/-- Witness for C8: two queued waiters, poll result 0, for each callback. -/
theorem callback_without_readiness_is_inert_witness :
    luv_zmq_recv_cb
        { flags := 0, h := { active := true, poll_cb := some .recv_cb },
          rouse := [recvCtx 1], queue := [sendCtx 2 [104]] }
        (okResult 0) (okResult 1) [7] =
      some { self := { flags := 0, h := { active := true, poll_cb := some .recv_cb },
                       rouse := [recvCtx 1], queue := [sendCtx 2 [104]] },
             trace := [.zmq_poll .ZMQ_POLLIN] } ∧
    luv_zmq_send_cb
        { flags := 0, h := { active := true, poll_cb := some .recv_cb },
          rouse := [recvCtx 1], queue := [sendCtx 2 [104]] }
        (okResult 0) (okResult 0) (okResult 1) =
      some { self := { flags := 0, h := { active := true, poll_cb := some .recv_cb },
                       rouse := [recvCtx 1], queue := [sendCtx 2 [104]] },
             trace := [.zmq_poll .ZMQ_POLLOUT] } :=
  (callback_without_readiness_is_inert
    { flags := 0, h := { active := true, poll_cb := some .recv_cb },
      rouse := [recvCtx 1], queue := [sendCtx 2 [104]] }
    (okResult 0) (okResult 0) (okResult 1) (okResult 1) [7]).1 (by decide)

/-- C5. Close is idempotent, as long as the closed mask is not zero: after a first close
(explicit or by collection) the flag is set and the registration stopped, the wait
queues are those of before; a second close, explicit or by collection, returns the very
same socket object, leaves by `return 1`, and its trace is empty (no `zmq_close`, no
`uv_poll_stop`). Both paths compute the same result. -/
theorem close_idempotent (SCLOSED : Nat) (hc : SCLOSED ≠ 0) (self : luv_object_t) :
    luv_zmq_socket_free SCLOSED self = luv_zmq_socket_close SCLOSED self ∧
    isClosed SCLOSED (luv_zmq_socket_close SCLOSED self).self ∧
    ((luv_zmq_socket_close SCLOSED self).self.h.active = false ∨ isClosed SCLOSED self) ∧
    (luv_zmq_socket_close SCLOSED self).self.rouse = self.rouse ∧
    (luv_zmq_socket_close SCLOSED self).self.queue = self.queue ∧
    (luv_zmq_socket_close SCLOSED self).ret = .returned 1 ∧
    luv_zmq_socket_close SCLOSED (luv_zmq_socket_close SCLOSED self).self =
      { self := (luv_zmq_socket_close SCLOSED self).self, trace := [], ret := .returned 1 } ∧
    luv_zmq_socket_free SCLOSED (luv_zmq_socket_close SCLOSED self).self =
      { self := (luv_zmq_socket_close SCLOSED self).self, trace := [], ret := .returned 1 } ∧
    luv_zmq_socket_close SCLOSED (luv_zmq_socket_free SCLOSED self).self =
      { self := (luv_zmq_socket_close SCLOSED self).self, trace := [], ret := .returned 1 } ∧
    luv_zmq_socket_free SCLOSED (luv_zmq_socket_free SCLOSED self).self =
      { self := (luv_zmq_socket_close SCLOSED self).self, trace := [], ret := .returned 1 } := by
  have h2 := close_of_closed SCLOSED _ (closed_after_close SCLOSED hc self)
  refine ⟨rfl, closed_after_close SCLOSED hc self, ?_, ?_, ?_, ?_, h2, ?_, ?_, ?_⟩
  · unfold luv_zmq_socket_close isClosed
    by_cases h : self.flags &&& SCLOSED = 0
    · left; simp [h, uv_poll_stop]
    · right; exact h
  · unfold luv_zmq_socket_close
    split <;> simp [uv_poll_stop]
  · unfold luv_zmq_socket_close
    split <;> simp [uv_poll_stop]
  · unfold luv_zmq_socket_close
    split <;> rfl
  · rw [free_eq_close]; exact h2
  · rw [free_eq_close]; exact h2
  · rw [free_eq_close, free_eq_close]; exact h2

/-- Witness for C5: mask 1, an open socket with an active registration and a waiter in
each queue. -/
theorem close_idempotent_witness :
    luv_zmq_socket_close 1
        (luv_zmq_socket_close 1
          { flags := 0, h := { active := true, poll_cb := some .send_cb },
            rouse := [recvCtx 1], queue := [sendCtx 2 [104]] }).self =
      { self := { flags := 1, h := { active := false, poll_cb := some .send_cb },
                  rouse := [recvCtx 1], queue := [sendCtx 2 [104]] },
        trace := [], ret := .returned 1 } := by
  have h := (close_idempotent 1 (by decide)
    { flags := 0, h := { active := true, poll_cb := some .send_cb },
      rouse := [recvCtx 1], queue := [sendCtx 2 [104]] }).2.2.2.2.2.2.1
  rw [h]; decide

/-- C4, as the code has it: a request on a closed socket attempts the transfer. Closed
socket (mask 1, closed from a fresh one), recv answered with `ENOTSOCK`: the trace holds
a `zmq_msg_recv` on the native socket; the same for send with `zmq_msg_send`. -/
theorem closed_socket_request_attempts_transfer :
    isClosed 1 (luv_zmq_socket_close 1 luv_zmq_ctx_socket).self ∧
    (luv_zmq_socket_recv (luv_zmq_socket_close 1 luv_zmq_ctx_socket).self
        (recvCtx 1) notsockResult []).trace = [.zmq_msg_recv] ∧
    (luv_zmq_socket_send (luv_zmq_socket_close 1 luv_zmq_ctx_socket).self
        (sendCtx 2 [104]) (okResult 0) notsockResult).trace =
      [.zmq_msg_send (.bytes [104])] := by
  decide

/-- C4, amended. On a socket whose closed flag is set, send and recv do not consult the
flag: for every caller and every answer of the environment, the same request on the
same socket with any other flag word gives the same result up to that word, the flag
word is handed back as it was (the socket stays closed), and the transfer is attempted
on the native socket as on an open socket: `zmq_msg_recv` is the first event of every
recv, `zmq_msg_send` of every send whose payload check and message sizing pass. When the
attempt fails with an error other than would-block, the request returns at once with
`false` and the error text: the socket object (wait queues, registration) is
unchanged, the trace is the attempt alone, and the call leaves by `return 2`, not by a
yield. The recv parts are for any caller `rcurr`, whatever its stack. -/
theorem closed_socket_request_fails_synchronously (SCLOSED : Nat) (self : luv_object_t)
    (scurr rcurr : luv_state_t) (init snd r : zmq_result) (msg : List Nat)
    (data : LuaString) (flags : Nat) (hc : isClosed SCLOSED self) :
    (luv_zmq_socket_send { self with flags := flags } scurr init snd =
        { luv_zmq_socket_send self scurr init snd with
          self := { (luv_zmq_socket_send self scurr init snd).self with flags := flags } }) ∧
    (luv_zmq_socket_recv { self with flags := flags } rcurr r msg =
        { luv_zmq_socket_recv self rcurr r msg with
          self := { (luv_zmq_socket_recv self rcurr r msg).self with flags := flags } }) ∧
    isClosed SCLOSED (luv_zmq_socket_send self scurr init snd).self ∧
    isClosed SCLOSED (luv_zmq_socket_recv self rcurr r msg).self ∧
    (luaL_checklstring scurr.L 2 = some data → init.rv = 0 →
      (luv_zmq_socket_send self scurr init snd).trace.head? = some (.zmq_msg_send data)) ∧
    (luv_zmq_socket_recv self rcurr r msg).trace.head? = some .zmq_msg_recv ∧
    (luaL_checklstring scurr.L 2 = some data → init.rv = 0 →
      snd.rv < 0 → ¬ wouldBlock snd →
      luv_zmq_socket_send self scurr init snd =
        { self := self, L := [.boolean false, .string (.strerror snd.errno)],
          trace := [.zmq_msg_send data], ret := .returned 2 }) ∧
    (r.rv < 0 → ¬ wouldBlock r →
      luv_zmq_socket_recv self rcurr r msg =
        { self := self, L := [.boolean false, .string (.strerror r.errno)],
          trace := [.zmq_msg_recv], ret := .returned 2 }) := by
  refine ⟨send_ignores_flags self scurr init snd flags,
    recv_ignores_flags self rcurr r msg flags, ?_, ?_, ?_, ?_, ?_, ?_⟩
  · unfold isClosed
    rw [send_keeps_flags]
    exact hc
  · unfold isClosed
    rw [recv_keeps_flags]
    exact hc
  · intro hd hi
    simp only [luv_zmq_socket_send, luv__zmq_socket_send, hd, hi]
    by_cases h1 : snd.rv < 0
    · by_cases h2 : snd.errno = EAGAIN ∨ snd.errno = EWOULDBLOCK
      · simp [h1, h2]
      · simp [h1, h2]
    · simp [h1]
  · simp only [luv_zmq_socket_recv, luv__zmq_socket_recv]
    by_cases h1 : r.rv < 0
    · by_cases h2 : r.errno = EAGAIN ∨ r.errno = EWOULDBLOCK
      · simp [h1, h2]
      · simp [h1, h2]
    · simp [h1]
  · intro hd hi hs1 hs2
    have hs3 : ¬ (snd.errno = EAGAIN ∨ snd.errno = EWOULDBLOCK) := fun h => hs2 ⟨hs1, h⟩
    simp [luv_zmq_socket_send, luv__zmq_socket_send, hd, hi, hs1, hs3]
  · intro hr1 hr2
    have hr3 : ¬ (r.errno = EAGAIN ∨ r.errno = EWOULDBLOCK) := fun h => hr2 ⟨hr1, h⟩
    simp [luv_zmq_socket_recv, luv__zmq_socket_recv, hr1, hr3]

/-- Witness for C4 amended: mask 1, a closed socket with a waiter in each queue; a recv
by an ordinary caller (stack: the socket alone) answered with `ENOTSOCK`. -/
theorem closed_socket_request_fails_synchronously_witness :
    luv_zmq_socket_recv
        { flags := 1, h := { active := false, poll_cb := some .recv_cb },
          rouse := [recvCtx 1], queue := [sendCtx 2 [104]] }
        (recvCtx 4) notsockResult [] =
      { self := { flags := 1, h := { active := false, poll_cb := some .recv_cb },
                  rouse := [recvCtx 1], queue := [sendCtx 2 [104]] },
        L := [.boolean false, .string (.strerror 88)],
        trace := [.zmq_msg_recv], ret := .returned 2 } :=
  (closed_socket_request_fails_synchronously 1
    { flags := 1, h := { active := false, poll_cb := some .recv_cb },
      rouse := [recvCtx 1], queue := [sendCtx 2 [104]] }
    (sendCtx 3 [105]) (recvCtx 4) (okResult 0) notsockResult notsockResult []
    (.bytes [105]) 0 (by decide)).2.2.2.2.2.2.2 (by decide) (by decide)

/-- C6. Suspend/queue order: starting from a socket whose send queue is empty, any
number of send requests that each hit would-block, with no callback in between, all go
through, and afterwards the send queue is exactly the list of callers in call order
while the recv queue is as before; the same with recv requests and the recv queue. The
tail insertion is that of `luv__cond_wait`. -/
theorem would_block_requests_queue_in_call_order (SCLOSED : Nat) (self : luv_object_t)
    (sends : List (luv_state_t × zmq_result × zmq_result))
    (recvs : List (luv_state_t × zmq_result × List Nat))
    (hs : ∀ q ∈ sends, (luaL_checklstring q.1.L 2).isSome = true ∧ q.2.1.rv = 0 ∧
      wouldBlock q.2.2)
    (hr : ∀ q ∈ recvs, wouldBlock q.2.1) :
    (self.queue = [] →
      ∃ s1, run SCLOSED self (sends.map fun q => Op.send q.1 q.2.1 q.2.2) = some s1 ∧
        s1.queue = sends.map (·.1) ∧ s1.queue.length = sends.length ∧
        s1.rouse = self.rouse) ∧
    (self.rouse = [] →
      ∃ s1, run SCLOSED self (recvs.map fun q => Op.recv q.1 q.2.1 q.2.2) = some s1 ∧
        s1.rouse = recvs.map (·.1) ∧ s1.rouse.length = recvs.length ∧
        s1.queue = self.queue) := by
  constructor
  · intro h0
    obtain ⟨s1, h1, h2, h3⟩ := run_sends_would_block SCLOSED sends self hs
    rw [h0, List.nil_append] at h2
    exact ⟨s1, h1, h2, by rw [h2, List.length_map], h3⟩
  · intro h0
    obtain ⟨s1, h1, h2, h3⟩ := run_recvs_would_block SCLOSED recvs self hr
    rw [h0, List.nil_append] at h2
    exact ⟨s1, h1, h2, by rw [h2, List.length_map], h3⟩

/-- Witness for C6: three sends and two recvs that hit would-block on a fresh socket. -/
theorem would_block_requests_queue_in_call_order_witness :
    (∃ s1, run 1 luv_zmq_ctx_socket
        ([(sendCtx 1 [97], okResult 0, againResult), (sendCtx 2 [], okResult 0, againResult),
          (sendCtx 3 [98], okResult 0, againResult)].map
            fun q => Op.send q.1 q.2.1 q.2.2) = some s1 ∧
      s1.queue = [sendCtx 1 [97], sendCtx 2 [], sendCtx 3 [98]] ∧ s1.queue.length = 3 ∧
      s1.rouse = []) ∧
    (∃ s1, run 1 luv_zmq_ctx_socket
        ([(recvCtx 4, againResult, []), (recvCtx 5, againResult, [])].map
            fun q => Op.recv q.1 q.2.1 q.2.2) = some s1 ∧
      s1.rouse = [recvCtx 4, recvCtx 5] ∧ s1.rouse.length = 2 ∧ s1.queue = []) :=
  have h := would_block_requests_queue_in_call_order 1 luv_zmq_ctx_socket
    [(sendCtx 1 [97], okResult 0, againResult), (sendCtx 2 [], okResult 0, againResult),
      (sendCtx 3 [98], okResult 0, againResult)]
    [(recvCtx 4, againResult, []), (recvCtx 5, againResult, [])]
    (by decide) (by decide)
  ⟨h.1 rfl, h.2 rfl⟩

/-- C7, as the code has it: three recv waiters, a callback whose poll reports readable
and whose receive succeeds. One context is resumed, not three, and the two others stay
queued with the registration stopped; the same on the send side. -/
theorem callback_resumes_one_of_three :
    (luv_zmq_recv_cb
        { flags := 0, h := { active := true, poll_cb := some .recv_cb },
          rouse := [recvCtx 1, recvCtx 2, recvCtx 3], queue := [] }
        (okResult 1) (okResult 1) [97]).map
        (fun out => (resumed out.trace, out.self.rouse, out.self.h.active)) =
      some ([{ id := 1, L := [.string (.bytes [97])] }], [recvCtx 2, recvCtx 3], false) ∧
    (luv_zmq_send_cb
        { flags := 0, h := { active := true, poll_cb := some .send_cb },
          rouse := [], queue := [sendCtx 1 [97], sendCtx 2 [98], sendCtx 3 [99]] }
        (okResult 1) (okResult 0) (okResult 1)).map
        (fun out => (resumed out.trace, out.self.queue, out.self.h.active)) =
      some ([sendCtx 1 [97]], [sendCtx 2 [98], sendCtx 3 [99]], false) := by
  decide

/-- C7, amended. With waiters `F1`, `F2`, `F3` and `rest` queued in that order for one
direction, one callback run whose poll is positive and whose transfer attempt succeeds
is defined, makes that one attempt, resumes `F1` and no other context, and leaves
`F2 :: F3 :: rest` queued in order, with the registration stopped. -/
theorem callback_serves_exactly_the_head (self : luv_object_t) (F1 F2 F3 : luv_state_t)
    (rest : List luv_state_t) (poll init snd r : zmq_result) (msg : List Nat)
    (data : LuaString) (hp : 0 < poll.rv) :
    (self.rouse = F1 :: F2 :: F3 :: rest → 0 ≤ r.rv →
      ∃ out, luv_zmq_recv_cb self poll r msg = some out ∧
        resumed out.trace = [{ F1 with L := [.string (.bytes msg)] }] ∧
        out.trace.filter Event.isTransfer = [.zmq_msg_recv] ∧
        out.self.rouse = F2 :: F3 :: rest ∧ out.self.queue = self.queue ∧
        out.self.h.active = false) ∧
    (self.queue = F1 :: F2 :: F3 :: rest → luaL_checklstring F1.L 2 = some data →
      init.rv = 0 → 0 ≤ snd.rv →
      ∃ out, luv_zmq_send_cb self poll init snd = some out ∧
        resumed out.trace = [F1] ∧
        out.trace.filter Event.isTransfer = [.zmq_msg_send data] ∧
        out.self.queue = F2 :: F3 :: rest ∧ out.self.rouse = self.rouse ∧
        out.self.h.active = false) := by
  have h0 : ¬ poll.rv = 0 := by omega
  have h1 : ¬ poll.rv < 0 := by omega
  constructor
  · intro hq hr
    have h2 : ¬ r.rv < 0 := by omega
    simp [luv_zmq_recv_cb, luv__zmq_socket_readable, luv__zmq_socket_recv, uv_poll_stop,
      hq, h0, h1, h2, hp, resumed, Event.isTransfer, List.filter]
  · intro hq hd hi hs
    have h2 : ¬ snd.rv < 0 := by omega
    simp [luv_zmq_send_cb, luv__zmq_socket_writable, luv__zmq_socket_send, uv_poll_stop,
      hq, h0, h1, h2, hp, hd, hi, resumed, Event.isTransfer, List.filter]

/-- Witness for C7 amended: four recv waiters, one message. -/
theorem callback_serves_exactly_the_head_witness :
    ∃ out, luv_zmq_recv_cb
        { flags := 0, h := { active := true, poll_cb := some .recv_cb },
          rouse := [recvCtx 1, recvCtx 2, recvCtx 3, recvCtx 4], queue := [] }
        (okResult 1) (okResult 1) [97] = some out ∧
      resumed out.trace = [{ recvCtx 1 with L := [.string (.bytes [97])] }] ∧
      out.trace.filter Event.isTransfer = [.zmq_msg_recv] ∧
      out.self.rouse = recvCtx 2 :: recvCtx 3 :: [recvCtx 4] ∧ out.self.queue = [] ∧
      out.self.h.active = false :=
  (callback_serves_exactly_the_head
    { flags := 0, h := { active := true, poll_cb := some .recv_cb },
      rouse := [recvCtx 1, recvCtx 2, recvCtx 3, recvCtx 4], queue := [] }
    (recvCtx 1) (recvCtx 2) (recvCtx 3) [recvCtx 4]
    (okResult 1) (okResult 0) (okResult 1) (okResult 1) [97] (.bytes []) (by decide)).1
    rfl (by decide)

/-- C9, as the code has it: a recv waiter whose stack holds the socket userdata, a
positive poll, and a re-run receive that reports `EAGAIN`. The context is resumed on its
own stack, which is not `false` followed by an error text. -/
theorem recv_cb_would_block_pushes_no_failure :
    wouldBlock againResult ∧
    (luv_zmq_recv_cb
        { flags := 0, h := { active := true, poll_cb := some .recv_cb },
          rouse := [recvCtx 1], queue := [] }
        (okResult 1) againResult []).map (fun out => (resumed out.trace, out.self.rouse)) =
      some ([{ id := 1, L := [.userdata 1] }], []) := by
  decide

/-- C9, amended. After a positive poll, when the re-run attempt for the popped head
reports would-block: on the send side the context is resumed on the stack `false`,
error text; on the recv side would-block is exempted from the failure push and the
context is resumed on its own stack, untouched. In both directions the context is not
put back: the queue afterwards is the tail. -/
theorem callback_would_block_resumes_without_requeue (self : luv_object_t)
    (F1 : luv_state_t) (rest : List luv_state_t) (poll init snd r : zmq_result)
    (msg : List Nat) (data : LuaString) (hp : 0 < poll.rv) :
    (self.queue = F1 :: rest → luaL_checklstring F1.L 2 = some data → init.rv = 0 →
      wouldBlock snd →
      ∃ out, luv_zmq_send_cb self poll init snd = some out ∧
        resumed out.trace =
          [{ F1 with L := [.boolean false, .string (.strerror snd.errno)] }] ∧
        out.self.queue = rest ∧ out.self.rouse = self.rouse) ∧
    (self.rouse = F1 :: rest → wouldBlock r →
      ∃ out, luv_zmq_recv_cb self poll r msg = some out ∧
        resumed out.trace = [F1] ∧
        out.self.rouse = rest ∧ out.self.queue = self.queue) := by
  have h0 : ¬ poll.rv = 0 := by omega
  have h1 : ¬ poll.rv < 0 := by omega
  constructor
  · intro hq hd hi hs
    obtain ⟨h2, _⟩ := hs
    simp [luv_zmq_send_cb, luv__zmq_socket_writable, luv__zmq_socket_send, uv_poll_stop,
      hq, h0, h1, h2, hp, hd, hi, resumed]
  · intro hq hr
    obtain ⟨h2, h3⟩ := hr
    simp [luv_zmq_recv_cb, luv__zmq_socket_readable, luv__zmq_socket_recv, uv_poll_stop,
      hq, h0, h1, h2, h3, hp, resumed]

/-- Witness for C9 amended: two send waiters, the re-run send reports `EAGAIN`. -/
theorem callback_would_block_resumes_without_requeue_witness :
    ∃ out, luv_zmq_send_cb
        { flags := 0, h := { active := true, poll_cb := some .send_cb },
          rouse := [recvCtx 3], queue := [sendCtx 1 [97], sendCtx 2 [98]] }
        (okResult 1) (okResult 0) againResult = some out ∧
      resumed out.trace =
        [{ sendCtx 1 [97] with
           L := [.boolean false, .string (.strerror againResult.errno)] }] ∧
      out.self.queue = [sendCtx 2 [98]] ∧ out.self.rouse = [recvCtx 3] :=
  (callback_would_block_resumes_without_requeue
    { flags := 0, h := { active := true, poll_cb := some .send_cb },
      rouse := [recvCtx 3], queue := [sendCtx 1 [97], sendCtx 2 [98]] }
    (sendCtx 1 [97]) [sendCtx 2 [98]]
    (okResult 1) (okResult 0) againResult againResult [] (.bytes [97]) (by decide)).1
    rfl rfl rfl (by decide)

/-- C3, as the code has it: on a fresh socket two recv requests hit would-block, then
`luv_zmq_recv_cb` runs once with a positive poll and a message. In the state reached the
registration is not active although the recv queue still holds the second waiter, so
active-iff-non-empty fails. -/
theorem registration_stopped_with_waiter_queued :
    run 1 luv_zmq_ctx_socket
        [.recv (recvCtx 1) againResult [], .recv (recvCtx 2) againResult [],
         .recv_ready (okResult 1) (okResult 1) [97]] =
      some { flags := 0, h := { active := false, poll_cb := some .recv_cb },
             rouse := [recvCtx 2], queue := [] } ∧
    ¬ (({ flags := 0, h := { active := false, poll_cb := some .recv_cb },
          rouse := [recvCtx 2], queue := [] } : luv_object_t).h.active = true ↔
       (({ flags := 0, h := { active := false, poll_cb := some .recv_cb },
           rouse := [recvCtx 2], queue := [] } : luv_object_t).queue ≠ [] ∨
        ({ flags := 0, h := { active := false, poll_cb := some .recv_cb },
           rouse := [recvCtx 2], queue := [] } : luv_object_t).rouse ≠ [])) := by
  decide

/-- C3, amended. In every state reached from a freshly created socket by send requests,
recv requests and readiness callbacks (histories with a close in them included), an
active registration implies that the send queue or the recv queue is not empty (the
converse does not hold); and a readiness callback that gets a non-zero poll, hence
dispatches a waiter, always leaves the registration stopped, whether or not a queue is
still non-empty. -/
theorem registration_active_implies_waiter (SCLOSED : Nat) (ops : List Op)
    (s : luv_object_t) (hrun : run SCLOSED luv_zmq_ctx_socket ops = some s) :
    (s.h.active = true → s.queue ≠ [] ∨ s.rouse ≠ []) ∧
    (∀ poll r msg out, poll.rv ≠ 0 → luv_zmq_recv_cb s poll r msg = some out →
      out.self.h.active = false) ∧
    (∀ poll init snd out, poll.rv ≠ 0 → luv_zmq_send_cb s poll init snd = some out →
      out.self.h.active = false) := by
  refine ⟨?_, ?_, ?_⟩
  · intro ha
    rcases armed_run SCLOSED ops _ s armed_fresh hrun ha with ⟨_, h⟩ | ⟨_, h⟩
    · exact Or.inr h
    · exact Or.inl h
  · intro poll r msg out hp ho
    exact recv_cb_stops s poll r msg out hp ho
  · intro poll init snd out hp ho
    exact send_cb_stops s poll init snd out hp ho

/-- Witness for C3 amended: a send and a recv suspend on a fresh socket; the
registration is active and both queues hold a waiter. -/
theorem registration_active_implies_waiter_witness :
    run 1 luv_zmq_ctx_socket
        [.send (sendCtx 1 [97]) (okResult 0) againResult, .recv (recvCtx 2) againResult []] =
      some { flags := 0, h := { active := true, poll_cb := some .recv_cb },
             rouse := [recvCtx 2], queue := [sendCtx 1 [97]] } ∧
    (({ flags := 0, h := { active := true, poll_cb := some .recv_cb },
        rouse := [recvCtx 2], queue := [sendCtx 1 [97]] } : luv_object_t).queue ≠ [] ∨
     ({ flags := 0, h := { active := true, poll_cb := some .recv_cb },
        rouse := [recvCtx 2], queue := [sendCtx 1 [97]] } : luv_object_t).rouse ≠ []) :=
  ⟨by decide,
   (registration_active_implies_waiter 1
      [.send (sendCtx 1 [97]) (okResult 0) againResult, .recv (recvCtx 2) againResult []]
      { flags := 0, h := { active := true, poll_cb := some .recv_cb },
        rouse := [recvCtx 2], queue := [sendCtx 1 [97]] }
      (by decide)).1 rfl⟩

/-- C10. No dequeue from an empty queue: in every state reached from a freshly created
socket by send requests, recv requests, close and readiness callbacks (a callback runs
only while the registration is active, and it is the one installed last), an active
registration has the callback of a direction whose wait queue is not empty. Hence every
callback run the reactor can make there is defined: it finds a head to take. -/
theorem callback_never_dequeues_from_empty (SCLOSED : Nat) (ops : List Op)
    (s : luv_object_t) (hrun : run SCLOSED luv_zmq_ctx_socket ops = some s) :
    (s.h.active = true →
      (s.h.poll_cb = some .recv_cb ∧ s.rouse ≠ []) ∨
      (s.h.poll_cb = some .send_cb ∧ s.queue ≠ [])) ∧
    (∀ poll r msg, enabled s (.recv_ready poll r msg) = true →
      (luv_zmq_recv_cb s poll r msg).isSome = true ∧ s.rouse ≠ []) ∧
    (∀ poll init snd, enabled s (.send_ready poll init snd) = true →
      (luv_zmq_send_cb s poll init snd).isSome = true ∧ s.queue ≠ []) := by
  have hA : Armed s := armed_run SCLOSED ops _ s armed_fresh hrun
  refine ⟨hA, ?_, ?_⟩
  · intro poll r msg he
    have h1 := armed_defined SCLOSED s (.recv_ready poll r msg) hA he
    simp only [step, Option.isSome_map'] at h1
    refine ⟨h1, ?_⟩
    simp only [enabled, Bool.and_eq_true, decide_eq_true_eq] at he
    rcases hA he.1 with ⟨_, hq⟩ | ⟨hcb, _⟩
    · exact hq
    · rw [he.2] at hcb
      cases hcb
  · intro poll init snd he
    have h1 := armed_defined SCLOSED s (.send_ready poll init snd) hA he
    simp only [step, Option.isSome_map'] at h1
    refine ⟨h1, ?_⟩
    simp only [enabled, Bool.and_eq_true, decide_eq_true_eq] at he
    rcases hA he.1 with ⟨hcb, _⟩ | ⟨_, hq⟩
    · rw [he.2] at hcb
      cases hcb
    · exact hq

/-- Witness for C10: a send suspends, a recv suspends, the recv callback serves its
waiter, the socket is closed, and a further send suspends on it; in the state reached the
send callback is installed and the send queue holds two waiters. -/
theorem callback_never_dequeues_from_empty_witness :
    run 1 luv_zmq_ctx_socket
        [.send (sendCtx 1 [97]) (okResult 0) againResult, .recv (recvCtx 2) againResult [],
         .recv_ready (okResult 1) (okResult 1) [98], .close,
         .send (sendCtx 3 [99]) (okResult 0) againResult] =
      some { flags := 1, h := { active := true, poll_cb := some .send_cb },
             rouse := [], queue := [sendCtx 1 [97], sendCtx 3 [99]] } ∧
    (luv_zmq_send_cb
        { flags := 1, h := { active := true, poll_cb := some .send_cb },
          rouse := [], queue := [sendCtx 1 [97], sendCtx 3 [99]] }
        (okResult 1) (okResult 0) (okResult 1)).isSome = true :=
  ⟨by decide,
   ((callback_never_dequeues_from_empty 1
      [.send (sendCtx 1 [97]) (okResult 0) againResult, .recv (recvCtx 2) againResult [],
       .recv_ready (okResult 1) (okResult 1) [98], .close,
       .send (sendCtx 3 [99]) (okResult 0) againResult]
      { flags := 1, h := { active := true, poll_cb := some .send_cb },
        rouse := [], queue := [sendCtx 1 [97], sendCtx 3 [99]] }
      (by decide)).2.2 (okResult 1) (okResult 0) (okResult 1) (by decide)).1⟩

end LuvZmq
